import Mathlib

/-!
Verification development for the clashConvertTool subscription converter.

The Go program (src/pkg/main.go) fetches a base64-encoded subscription,
splits it into `vmess://` node links, decodes each into a `VmessNode`,
maps it to a `ClashProxy`, merges the results with a YAML template (or a
hardcoded fallback) into a `ClashConfig`, and serves the serialized
document over HTTP.

The embedding below mirrors the Go source:
  * `goAtoi` models `strconv.Atoi` (optional sign, decimal digits,
    64-bit signed range; error otherwise).
  * `convertVmessToClashProxy` is the node mapper.
  * `padVmessBase64` is the padding step applied to a stripped
    `vmess://` payload before per-node base64 decoding.
  * `processLine` is one iteration of the orchestrator's loop; the
    external library calls (per-node base64 decode, JSON unmarshal) are
    parameters, since they are not code of this repository.
  * `createDefaultClashConfig` is the template merger; the template read
    and YAML structural parse are modeled by `TemplateRead`; a
    structural-parse failure reaches `log.Fatalf`, modeled as
    `MergeResult.fatalExit` (process termination, not an error return).
  * `processConvert` is the orchestrator after the outer fetch/decode,
    taking the decoded subscription body; `yaml.Marshal` cannot fail on
    these record types, so the success payload is the document itself.
  * `processConfig` is the HTTP handler for GET /config, modeled as the
    list of response actions it performs on the gin context.
-/

/-- Go `VmessNode`: fields of the decoded vmess JSON. The port is text. -/
structure VmessNode where
  add : String
  aid : Int
  host : String
  id : String
  net : String
  path : String
  port : String
  ps : String
  tls : String
  type : String
  v : String
deriving DecidableEq, Repr

/-- Go `ws-opts` payload: the mapper writes the key "path" and a
"headers" mapping. -/
structure WsOpts where
  path : String
  headers : List (String × String)
deriving DecidableEq, Repr

/-- Go `ClashProxy`. `wsOpts = none` models a nil map, which the
`omitempty` YAML tag leaves absent from the serialized entry. -/
structure ClashProxy where
  name : String
  type : String
  server : String
  port : Int
  uuid : String
  alterId : Int
  cipher : String
  tls : Bool
  network : String
  wsOpts : Option WsOpts
  skipCert : Bool
deriving DecidableEq, Repr

/-- Go `RulesProvider`. -/
structure RulesProvider where
  type : String
  behavior : String
  url : String
  path : String
  interval : Int
deriving DecidableEq, Repr

/-- Go `ProxyGroup`. -/
structure ProxyGroup where
  name : String
  type : String
  proxies : List String
deriving DecidableEq, Repr

/-- Go `ClashConfig`, the output document. -/
structure ClashConfig where
  port : Int
  socksPort : Int
  allowLan : Bool
  mode : String
  logLevel : String
  externalCtrl : String
  proxies : List ClashProxy
  proxyGroups : List ProxyGroup
  rulesProviders : List (String × RulesProvider)
  rules : List String
deriving DecidableEq, Repr

/-- One decimal digit of a decimal literal, as `strconv` reads it. -/
def digitVal (c : Char) : Option Nat :=
  if '0' ≤ c ∧ c ≤ '9' then some (c.toNat - '0'.toNat) else none

/-- Accumulate the value of a run of decimal digits; fails on the first
non-digit character. -/
def parseDecDigits : List Char → Nat → Option Nat
  | [], acc => some acc
  | c :: rest, acc =>
    match digitVal c with
    | some d => parseDecDigits rest (acc * 10 + d)
    | none => none

/-- Go `strconv.Atoi`: optional leading sign, then at least one decimal
digit, value within the signed 64-bit range; any other input is an
error (`none`). -/
def goAtoi (s : String) : Option Int :=
  match s.data with
  | [] => none
  | c :: rest =>
    let signDigits : Bool × List Char :=
      if c = '-' then (true, rest)
      else if c = '+' then (false, rest)
      else (false, c :: rest)
    if signDigits.2.isEmpty then none
    else
      match parseDecDigits signDigits.2 0 with
      | none => none
      | some n =>
        let v : Int := if signDigits.1 then -(n : Int) else (n : Int)
        if -(2 ^ 63) ≤ v ∧ v ≤ 2 ^ 63 - 1 then some v else none

/-- Go `convertVmessToClashProxy`: maps a decoded node to a proxy entry,
failing exactly when `strconv.Atoi` fails on the port text. -/
def convertVmessToClashProxy (node : VmessNode) : Except String ClashProxy :=
  match goAtoi node.port with
  | none => Except.error ("invalid port: " ++ node.port)
  | some port =>
    Except.ok
      { name := node.ps
        type := "vmess"
        server := node.add
        port := port
        uuid := node.id
        alterId := node.aid
        cipher := "auto"
        tls := node.tls == "tls"
        network := node.net
        wsOpts :=
          if node.net == "ws" then
            some { path := node.path, headers := [("Host", node.host)] }
          else none
        skipCert := true }

/-- The whitespace class of Go `unicode.IsSpace` restricted to Latin-1,
which is what `strings.TrimSpace` strips at either end. -/
def goIsSpace (c : Char) : Bool :=
  c = ' ' || c = '\t' || c = '\n' || c = Char.ofNat 0x0b ||
    c = Char.ofNat 0x0c || c = '\r' || c = Char.ofNat 0x85 ||
    c = Char.ofNat 0xa0

/-- Go `strings.TrimSpace`: drop whitespace from both ends. -/
def goTrimSpace (s : String) : String :=
  String.mk (((s.data.dropWhile goIsSpace).reverse.dropWhile goIsSpace).reverse)

/-- Go `strings.HasPrefix` on character lists. -/
def listStartsWith : List Char → List Char → Bool
  | _, [] => true
  | [], _ :: _ => false
  | c :: cs, p :: ps => c = p && listStartsWith cs ps

/-- Go `strings.HasPrefix`. -/
def goHasPre (s pre : String) : Bool :=
  listStartsWith s.data pre.data

/-- Go `strings.Split` with separator `"\n"`, on character lists. -/
def splitNewlineAux : List Char → List (List Char)
  | [] => [[]]
  | c :: rest =>
    match splitNewlineAux rest with
    | [] => [[]]
    | h :: t => if c = '\n' then [] :: h :: t else (c :: h) :: t

/-- Go `strings.Split(s, "\n")`. -/
def goSplitNewline (s : String) : List String :=
  (splitNewlineAux s.data).map String.mk

/-- The padding step of the orchestrator loop: when the stripped payload
length is not a multiple of 4, append `=` until it is. -/
def padVmessBase64 (s : String) : String :=
  if s.length % 4 ≠ 0 then
    s ++ String.mk (List.replicate (4 - s.length % 4) '=')
  else s

/-- One iteration of the orchestrator's per-line loop: trim, check the
`vmess://` scheme (silently skipping other lines), strip it, pad,
base64-decode, JSON-unmarshal, then map. `b64decode` and
`jsonUnmarshal` stand for `base64.StdEncoding.DecodeString` and
`json.Unmarshal`, external library calls. Any failure skips the line. -/
def processLine (b64decode : String → Option String)
    (jsonUnmarshal : String → Option VmessNode) (link : String) :
    Option ClashProxy :=
  let trimmed := goTrimSpace link
  if goHasPre trimmed "vmess://" then
    let vmessBase64 := String.mk (trimmed.data.drop 8)
    match b64decode (padVmessBase64 vmessBase64) with
    | none => none
    | some vmessJSON =>
      match jsonUnmarshal vmessJSON with
      | none => none
      | some node =>
        match convertVmessToClashProxy node with
        | Except.error _ => none
        | Except.ok proxy => some proxy
  else none

/-- Go template struct parsed from resources/out-template.yaml. The
proxy-groups entries are untyped YAML maps (`[]map[string]interface` in
Go), modeled by association lists of `YamlValue`. -/
inductive YamlValue where
  | str (s : String)
  | int (n : Int)
  | bool (b : Bool)
  | list (xs : List YamlValue)
  | map (kvs : List (String × YamlValue))
  | null
deriving Repr

/-- Go map lookup `g[k]` on an untyped YAML mapping: a missing key
yields the nil interface, modeled as `YamlValue.null`. -/
def lookupYaml (g : List (String × YamlValue)) (k : String) : YamlValue :=
  match g.find? (fun kv => kv.1 == k) with
  | some kv => kv.2
  | none => YamlValue.null

/-- Go type assertion `v.(string)` in its ok-form: `some` on a string,
`none` (zero value for the caller) otherwise. -/
def yamlAsStringOpt : YamlValue → Option String
  | YamlValue.str s => some s
  | _ => none

/-- Go `TemplateConfig`, the temporary struct the template parses into. -/
structure TemplateConfig where
  port : Int
  socksPort : Int
  allowLan : Bool
  mode : String
  logLevel : String
  externalCtrl : String
  ruleProviders : List (String × RulesProvider)
  rules : List String
  proxyGroups : List (List (String × YamlValue))

/-- The per-group body of the merger's loop: name and type via ok-form
string assertions (empty string on failure), and the member list from
the `proxies` field — expansion on the exact placeholder string,
string items of a literal list, empty otherwise. -/
def convertTemplateGroup (proxyNames : List String)
    (g : List (String × YamlValue)) : ProxyGroup :=
  let name := (yamlAsStringOpt (lookupYaml g "name")).getD ""
  let typ := (yamlAsStringOpt (lookupYaml g "type")).getD ""
  let groupProxies :=
    match lookupYaml g "proxies" with
    | YamlValue.str p => if p = "$\x7bproxies\x7d" then proxyNames else []
    | YamlValue.list xs => xs.filterMap yamlAsStringOpt
    | _ => []
  { name := name, type := typ, proxies := groupProxies }

/-- Outcome of `os.ReadFile` plus `yaml.Unmarshal` on the template:
unreadable file, readable but structurally malformed, or parsed. -/
inductive TemplateRead where
  | unreadable
  | malformed (msg : String)
  | parsed (t : TemplateConfig)

/-- Result of the merger: a config, or process termination via
`log.Fatalf` (which never returns to the caller). -/
inductive MergeResult where
  | config (c : ClashConfig)
  | fatalExit (msg : String)

/-- Go `createDefaultClashConfig`: hardcoded fallback when the template
file is unreadable; `log.Fatalf` when it is readable but malformed;
otherwise the merged document. -/
def createDefaultClashConfig (tmplRead : TemplateRead)
    (proxies : List ClashProxy) (proxyNames : List String) : MergeResult :=
  match tmplRead with
  | TemplateRead.unreadable =>
    MergeResult.config
      { port := 7890
        socksPort := 7891
        allowLan := true
        mode := "Rule"
        logLevel := "info"
        externalCtrl := "127.0.0.1:9090"
        proxies := proxies
        proxyGroups :=
          [{ name := "PROXY"
             type := "select"
             proxies := ["DIRECT", "REJECT"] ++ proxyNames }]
        rulesProviders := []
        rules := ["MATCH,DIRECT"] }
  | TemplateRead.malformed msg =>
    MergeResult.fatalExit ("Error parsing template: " ++ msg)
  | TemplateRead.parsed tmpl =>
    MergeResult.config
      { port := tmpl.port
        socksPort := tmpl.socksPort
        allowLan := tmpl.allowLan
        mode := tmpl.mode
        logLevel := tmpl.logLevel
        externalCtrl := tmpl.externalCtrl
        proxies := proxies
        proxyGroups := tmpl.proxyGroups.map (convertTemplateGroup proxyNames)
        rulesProviders := tmpl.ruleProviders
        rules := tmpl.rules }

/-- Result of `processConvert` as the HTTP layer sees it: a document,
an error return, or no return at all because `log.Fatalf` killed the
process inside the merger. -/
inductive PipelineResult where
  | ok (c : ClashConfig)
  | error (msg : String)
  | fatalExit (msg : String)
deriving Repr

/-- Go `processConvert` after the outer fetch and outer base64 decode
(both external to the loop being verified): split the decoded body into
lines, run the per-line loop accumulating proxies and their names, fail
when zero survived, then merge. `yaml.Marshal` cannot fail on these
record types, so success carries the document. -/
def processConvert (b64decode : String → Option String)
    (jsonUnmarshal : String → Option VmessNode) (tmplRead : TemplateRead)
    (decodedBody : String) : PipelineResult :=
  let nodeLinks := goSplitNewline decodedBody
  let clashProxies := nodeLinks.filterMap (processLine b64decode jsonUnmarshal)
  let proxyNames := clashProxies.map (fun p => p.name)
  if clashProxies.isEmpty then
    PipelineResult.error "no valid vmess nodes found in the subscription"
  else
    match createDefaultClashConfig tmplRead clashProxies proxyNames with
    | MergeResult.fatalExit m => PipelineResult.fatalExit m
    | MergeResult.config c => PipelineResult.ok c

/-- One write the handler performs on the gin context: a JSON body with
a status, a response header, or the data body with a status and
content type (`none` for Go's nil byte slice). -/
inductive ResponseAction where
  | json (status : Nat) (body : List (String × String))
  | header (key value : String)
  | data (status : Nat) (contentType : String) (body : Option ClashConfig)
deriving DecidableEq, Repr

/-- Go `processConfig`, the GET /config handler, as the sequence of
writes it performs for a given pipeline outcome. After `c.JSON` on the
error path the handler does not return: it still sets both headers and
calls `c.Data` with the nil data slice. When the pipeline hit
`log.Fatalf` the handler never resumes, so no write happens. -/
def processConfig (result : PipelineResult) : List ResponseAction :=
  match result with
  | PipelineResult.fatalExit _ => []
  | PipelineResult.ok c =>
    [ResponseAction.header "Content-Type" "application/x-yaml",
     ResponseAction.header "Content-Disposition"
       "attachment; filename=\x22out.yaml\x22",
     ResponseAction.data 200 "application/x-yaml" (some c)]
  | PipelineResult.error msg =>
    [ResponseAction.json 500 [("error", msg)],
     ResponseAction.header "Content-Type" "application/x-yaml",
     ResponseAction.header "Content-Disposition"
       "attachment; filename=\x22out.yaml\x22",
     ResponseAction.data 200 "application/x-yaml" none]

/-- A concrete decoded node (tcp, port "443"), the end-to-end example of
the spec, used for concrete runs. -/
def nodeTcp443 : VmessNode :=
  { add := "1.2.3.4", aid := 0, host := "", id := "abc-123", net := "tcp",
    path := "", port := "443", ps := "test-node", tls := "tls",
    type := "none", v := "2" }

/-- The proxy entry the mapper produces for `nodeTcp443`. -/
def proxyTcp443 : ClashProxy :=
  { name := "test-node", type := "vmess", server := "1.2.3.4", port := 443,
    uuid := "abc-123", alterId := 0, cipher := "auto", tls := true,
    network := "tcp", wsOpts := none, skipCert := true }

/-- A concrete decoded node whose port text is "-1": `strconv.Atoi`
parses it, though -1 is not a positive integer. -/
def nodeNegPort : VmessNode :=
  { add := "9.9.9.9", aid := 0, host := "", id := "uuid-1", net := "tcp",
    path := "", port := "-1", ps := "neg-node", tls := "",
    type := "none", v := "2" }

/-- The proxy entry the mapper produces for `nodeNegPort`. -/
def proxyNegPort : ClashProxy :=
  { name := "neg-node", type := "vmess", server := "9.9.9.9", port := -1,
    uuid := "uuid-1", alterId := 0, cipher := "auto", tls := false,
    network := "tcp", wsOpts := none, skipCert := true }

/-- A concrete decoded websocket node, used for concrete runs. -/
def nodeWs80 : VmessNode :=
  { add := "ws.example", aid := 2, host := "h.example", id := "uuid-2",
    net := "ws", path := "/p", port := "80", ps := "ws-node", tls := "tls",
    type := "none", v := "2" }

/-- The proxy entry the mapper produces for `nodeWs80`. -/
def proxyWs80 : ClashProxy :=
  { name := "ws-node", type := "vmess", server := "ws.example", port := 80,
    uuid := "uuid-2", alterId := 2, cipher := "auto", tls := true,
    network := "ws",
    wsOpts := some { path := "/p", headers := [("Host", "h.example")] },
    skipCert := true }

/-- A per-node base64 decode that always succeeds, for concrete runs. -/
def b64ok : String → Option String := fun _ => some "json"

/-- A per-node base64 decode that always fails, for concrete runs. -/
def b64fail : String → Option String := fun _ => none

/-- A JSON unmarshal that always yields `nodeTcp443`, for concrete runs. -/
def jsonTcp443 : String → Option VmessNode := fun _ => some nodeTcp443

/-- A JSON unmarshal that always fails, for concrete runs. -/
def jsonFail : String → Option VmessNode := fun _ => none

/-- A template proxy group whose proxies field is exactly the
placeholder string. -/
def groupPlaceholder : List (String × YamlValue) :=
  [("name", YamlValue.str "G"), ("type", YamlValue.str "select"),
   ("proxies", YamlValue.str "$\x7bproxies\x7d")]

/-- A template proxy group with ill-typed name, type and proxies
fields. -/
def groupIllTyped : List (String × YamlValue) :=
  [("name", YamlValue.int 5), ("type", YamlValue.bool true),
   ("proxies", YamlValue.int 7)]

/-- A template proxy group whose literal proxies list mixes a string
with a non-string item. -/
def groupMixedList : List (String × YamlValue) :=
  [("name", YamlValue.str "M"), ("type", YamlValue.str "select"),
   ("proxies", YamlValue.list [YamlValue.str "DIRECT", YamlValue.int 3])]

/-- A concrete parsed template holding `groupPlaceholder`, for concrete
runs. -/
def tmplSample : TemplateConfig :=
  { port := 7890, socksPort := 7891, allowLan := true, mode := "Rule",
    logLevel := "info", externalCtrl := "127.0.0.1:9090",
    ruleProviders := [], rules := ["MATCH,DIRECT"],
    proxyGroups := [groupPlaceholder] }

/-- C1 counterexample: the decoded node whose port text is "-1" does
not parse to a positive integer, yet the mapper does not reject it — it
produces a proxy entry with port -1. -/
theorem C1_counterexample :
    nodeNegPort.port = "-1" ∧
    goAtoi nodeNegPort.port = some (-1) ∧
    convertVmessToClashProxy nodeNegPort = Except.ok proxyNegPort ∧
    ¬ (0 : Int) < proxyNegPort.port :=
  ⟨rfl, by decide, rfl, by decide⟩

/-- C1 (amended): the mapper fails with the invalid-port error exactly
when `strconv.Atoi` fails on the port text; whenever the port text
parses as an integer — positive or not — the node is mapped to a proxy
entry carrying that integer port. -/
theorem C1_port_parsing (node : VmessNode) :
    (goAtoi node.port = none →
      convertVmessToClashProxy node =
        Except.error ("invalid port: " ++ node.port)) ∧
    (∀ p : Int, goAtoi node.port = some p →
      ∃ proxy, convertVmessToClashProxy node = Except.ok proxy ∧
        proxy.port = p) := by
  constructor
  · intro h
    unfold convertVmessToClashProxy
    rw [h]
  · intro p h
    unfold convertVmessToClashProxy
    rw [h]
    exact ⟨_, rfl, rfl⟩

/-- C1 witness: the amended theorem applied to the node with port text
"443" and to a node with a non-numeric port text. -/
theorem C1_port_parsing_witness :
    (∃ proxy, convertVmessToClashProxy nodeTcp443 = Except.ok proxy ∧
      proxy.port = 443) ∧
    convertVmessToClashProxy { nodeTcp443 with port := "x" } =
      Except.error ("invalid port: " ++ "x") :=
  ⟨(C1_port_parsing nodeTcp443).2 443 (by decide),
   (C1_port_parsing { nodeTcp443 with port := "x" }).1 (by decide)⟩

/-- C2: at a failing pipeline run the handler writes the 500 JSON error
but, missing a return, also sets the binary content-type and
content-disposition headers and writes the data body. -/
theorem C2_error_also_writes_body :
    processConvert b64fail jsonFail TemplateRead.unreadable "hello" =
      PipelineResult.error "no valid vmess nodes found in the subscription" ∧
    processConfig
        (PipelineResult.error "no valid vmess nodes found in the subscription") =
      [ResponseAction.json 500
         [("error", "no valid vmess nodes found in the subscription")],
       ResponseAction.header "Content-Type" "application/x-yaml",
       ResponseAction.header "Content-Disposition"
         "attachment; filename=\x22out.yaml\x22",
       ResponseAction.data 200 "application/x-yaml" none] :=
  ⟨rfl, rfl⟩

/-- C3 counterexample: with a readable but malformed template and a
subscription holding one valid node, the pipeline ends in `log.Fatalf`
(process termination), not in an error return, and the HTTP layer
writes no error response at all. -/
theorem C3_counterexample :
    processConvert b64ok jsonTcp443 (TemplateRead.malformed "yaml error")
        "vmess://AAAA" =
      PipelineResult.fatalExit "Error parsing template: yaml error" ∧
    processConfig
        (PipelineResult.fatalExit "Error parsing template: yaml error") = [] :=
  ⟨rfl, rfl⟩

/-- C3 (amended): when the template file is readable but structurally
malformed, the merger does not fall back to the built-in default — it
terminates the process via `log.Fatalf` with a descriptive error, so no
error value reaches the orchestrator boundary and the HTTP layer never
writes a response. -/
theorem C3_malformed_template_fatal (msg : String) (proxies : List ClashProxy)
    (names : List String) :
    createDefaultClashConfig (TemplateRead.malformed msg) proxies names =
      MergeResult.fatalExit ("Error parsing template: " ++ msg) ∧
    (∀ m, processConfig (PipelineResult.fatalExit m) = []) :=
  ⟨rfl, fun _ => rfl⟩

/-- C4: for a parsed template, each group is merged in place; a group
whose proxies field is exactly the placeholder string gets the full
ordered list of generated proxy names, and a group whose proxies field
is a literal list of strings keeps that list as given. -/
theorem C4_template_expansion (tmpl : TemplateConfig)
    (proxies : List ClashProxy) (names : List String) (k : Nat)
    (g : List (String × YamlValue)) (hk : tmpl.proxyGroups[k]? = some g) :
    ∃ c, createDefaultClashConfig (TemplateRead.parsed tmpl) proxies names =
        MergeResult.config c ∧
      c.proxyGroups[k]? = some (convertTemplateGroup names g) ∧
      (lookupYaml g "proxies" = YamlValue.str "$\x7bproxies\x7d" →
        (convertTemplateGroup names g).proxies = names) ∧
      (∀ ms : List String,
        lookupYaml g "proxies" = YamlValue.list (ms.map YamlValue.str) →
        (convertTemplateGroup names g).proxies = ms) := by
  refine ⟨_, rfl, ?_, ?_, ?_⟩
  · show (tmpl.proxyGroups.map (convertTemplateGroup names))[k]? = _
    rw [List.getElem?_map _ _ _, hk]
    rfl
  · intro h
    unfold convertTemplateGroup
    rw [h]
    simp
  · intro ms h
    unfold convertTemplateGroup
    rw [h]
    simp only []
    show (ms.map YamlValue.str).filterMap yamlAsStringOpt = ms
    rw [List.filterMap_map _ _ _]
    exact List.filterMap_some ms

/-- C4 witness: the theorem applied to a concrete template whose single
group carries the placeholder, with two generated names. -/
theorem C4_template_expansion_witness :
    (convertTemplateGroup ["n1", "n2"] groupPlaceholder).proxies =
      ["n1", "n2"] := by
  obtain ⟨c, _, _, hph, _⟩ :=
    C4_template_expansion tmplSample [] ["n1", "n2"] 0 groupPlaceholder rfl
  exact hph rfl

/-- C5: whenever the template file is unreadable, the output document
is exactly the hardcoded fallback: port 7890, socks-port 7891,
allow-lan true, mode "Rule", log-level "info", external-controller
"127.0.0.1:9090", a single "PROXY"/"select" group whose members are
"DIRECT", "REJECT" and then all generated names in order, and the
single rule "MATCH,DIRECT". -/
theorem C5_fallback_defaults (proxies : List ClashProxy)
    (names : List String) :
    createDefaultClashConfig TemplateRead.unreadable proxies names =
      MergeResult.config
        { port := 7890
          socksPort := 7891
          allowLan := true
          mode := "Rule"
          logLevel := "info"
          externalCtrl := "127.0.0.1:9090"
          proxies := proxies
          proxyGroups :=
            [{ name := "PROXY"
               type := "select"
               proxies := ["DIRECT", "REJECT"] ++ names }]
          rulesProviders := []
          rules := ["MATCH,DIRECT"] } := rfl

/-- C6: a mapped proxy entry carries the ws-opts field (path plus the
Host header) exactly when the node's network field is "ws"; for any
other network the field is `none`, which the omitempty tag keeps out of
the serialized entry. -/
theorem C6_ws_opts_iff (node : VmessNode) (proxy : ClashProxy)
    (h : convertVmessToClashProxy node = Except.ok proxy) :
    (node.net = "ws" →
      proxy.wsOpts =
        some { path := node.path, headers := [("Host", node.host)] }) ∧
    (node.net ≠ "ws" → proxy.wsOpts = none) := by
  unfold convertVmessToClashProxy at h
  cases hp : goAtoi node.port with
  | none =>
    rw [hp] at h
    exact Except.noConfusion h
  | some p =>
    rw [hp] at h
    injection h with h'
    subst h'
    constructor
    · intro hw
      simp [hw]
    · intro hw
      simp [hw]

/-- C6 witness: the theorem applied to a concrete websocket node and to
the concrete tcp node. -/
theorem C6_ws_opts_iff_witness :
    proxyWs80.wsOpts =
      some { path := "/p", headers := [("Host", "h.example")] } ∧
    proxyTcp443.wsOpts = none :=
  ⟨(C6_ws_opts_iff nodeWs80 proxyWs80 rfl).1 rfl,
   (C6_ws_opts_iff nodeTcp443 proxyTcp443 rfl).2 (by decide)⟩

/-- C7: when no line of the decoded subscription body survives the
per-line loop, the pipeline fails with the empty-result error rather
than succeeding empty; when at least one proxy survives (and the
template is not malformed, which would kill the process instead), the
pipeline succeeds. -/
theorem C7_empty_vs_success (b64decode : String → Option String)
    (jsonUnmarshal : String → Option VmessNode) (tmplRead : TemplateRead)
    (body : String) :
    ((goSplitNewline body).filterMap (processLine b64decode jsonUnmarshal) =
        [] →
      processConvert b64decode jsonUnmarshal tmplRead body =
        PipelineResult.error "no valid vmess nodes found in the subscription") ∧
    ((goSplitNewline body).filterMap (processLine b64decode jsonUnmarshal) ≠
        [] →
      (∀ m, tmplRead ≠ TemplateRead.malformed m) →
      ∃ c, processConvert b64decode jsonUnmarshal tmplRead body =
        PipelineResult.ok c) := by
  constructor
  · intro h
    simp only [processConvert]
    rw [h]
    rfl
  · intro h hm
    simp only [processConvert]
    cases hl : (goSplitNewline body).filterMap
        (processLine b64decode jsonUnmarshal) with
    | nil => exact absurd hl h
    | cons a t =>
      cases tmplRead with
      | unreadable => exact ⟨_, rfl⟩
      | malformed m => exact absurd rfl (hm m)
      | parsed tmpl => exact ⟨_, rfl⟩

/-- C7 witness: the theorem applied to a body with no usable line and
to a body holding one valid vmess line. -/
theorem C7_empty_vs_success_witness :
    processConvert b64fail jsonFail TemplateRead.unreadable "hello" =
      PipelineResult.error "no valid vmess nodes found in the subscription" ∧
    ∃ c, processConvert b64ok jsonTcp443 TemplateRead.unreadable
        "vmess://AAAA" = PipelineResult.ok c :=
  ⟨(C7_empty_vs_success b64fail jsonFail TemplateRead.unreadable "hello").1
     rfl,
   (C7_empty_vs_success b64ok jsonTcp443 TemplateRead.unreadable
       "vmess://AAAA").2 (by decide)
     (fun m hc => TemplateRead.noConfusion hc)⟩

/-- C8: the padding step yields a payload whose length is a multiple of
4: a payload already a multiple of 4 passes through unchanged, and any
other payload gets exactly 4 - len mod 4 padding characters `=`
appended. -/
theorem C8_padding (s : String) :
    (padVmessBase64 s).length % 4 = 0 ∧
    (s.length % 4 = 0 → padVmessBase64 s = s) ∧
    (s.length % 4 ≠ 0 →
      padVmessBase64 s =
        s ++ String.mk (List.replicate (4 - s.length % 4) '=')) := by
  unfold padVmessBase64
  by_cases h : s.length % 4 = 0
  · rw [if_neg (not_not_intro h)]
    exact ⟨h, fun _ => rfl, fun hn => absurd h hn⟩
  · rw [if_pos h]
    refine ⟨?_, fun h0 => absurd h0 h, fun _ => rfl⟩
    rw [String.length_append]
    have hmk : (String.mk (List.replicate (4 - s.length % 4) '=')).length =
        4 - s.length % 4 := by
      show (List.replicate (4 - s.length % 4) '=').length = 4 - s.length % 4
      exact List.length_replicate _ _
    rw [hmk]
    omega

/-- C8 witness: the theorem applied to a 5-character payload (padded to
8) and to a 4-character payload (unchanged). -/
theorem C8_padding_witness :
    (padVmessBase64 "AAAAA").length % 4 = 0 ∧
    padVmessBase64 "AAAA" = "AAAA" ∧
    padVmessBase64 "AAAAA" =
      "AAAAA" ++ String.mk (List.replicate (4 - "AAAAA".length % 4) '=') :=
  ⟨(C8_padding "AAAAA").1, (C8_padding "AAAA").2.1 (by decide),
   (C8_padding "AAAAA").2.2 (by decide)⟩

/-- C9: the per-node decode-and-map step is a pure function of its
input — two runs on the same line (and two runs of the mapper on the
same decoded node) yield identical results. -/
theorem C9_determinism (b64decode : String → Option String)
    (jsonUnmarshal : String → Option VmessNode) (link : String)
    (node : VmessNode) :
    processLine b64decode jsonUnmarshal link =
      processLine b64decode jsonUnmarshal link ∧
    convertVmessToClashProxy node = convertVmessToClashProxy node :=
  ⟨rfl, rfl⟩

/-- C10: the merger is total on ill-typed proxy-group fields: a
non-string name or type becomes the empty string, a proxies field that
is neither the placeholder string nor a list becomes the empty member
list, non-string items of a literal list are dropped (the member list
is the ordered string items), and a parsed template always merges to a
config, never to an abort. -/
theorem C10_merger_totality (names : List String)
    (g : List (String × YamlValue)) (tmpl : TemplateConfig)
    (proxies : List ClashProxy) :
    (∃ c, createDefaultClashConfig (TemplateRead.parsed tmpl) proxies names =
      MergeResult.config c) ∧
    ((∀ s, lookupYaml g "name" ≠ YamlValue.str s) →
      (convertTemplateGroup names g).name = "") ∧
    ((∀ s, lookupYaml g "type" ≠ YamlValue.str s) →
      (convertTemplateGroup names g).type = "") ∧
    (lookupYaml g "proxies" ≠ YamlValue.str "$\x7bproxies\x7d" →
      (∀ xs, lookupYaml g "proxies" ≠ YamlValue.list xs) →
      (convertTemplateGroup names g).proxies = []) ∧
    (∀ xs, lookupYaml g "proxies" = YamlValue.list xs →
      (convertTemplateGroup names g).proxies =
        xs.filterMap yamlAsStringOpt) := by
  refine ⟨⟨_, rfl⟩, ?_, ?_, ?_, ?_⟩
  · intro hs
    unfold convertTemplateGroup
    cases hv : lookupYaml g "name" with
    | str s => exact absurd hv (hs s)
    | int n => rfl
    | bool b => rfl
    | list xs => rfl
    | map kvs => rfl
    | null => rfl
  · intro hs
    unfold convertTemplateGroup
    cases hv : lookupYaml g "type" with
    | str s => exact absurd hv (hs s)
    | int n => rfl
    | bool b => rfl
    | list xs => rfl
    | map kvs => rfl
    | null => rfl
  · intro hstr hlist
    unfold convertTemplateGroup
    cases hv : lookupYaml g "proxies" with
    | str s =>
      rw [hv] at hstr
      simp only []
      rw [if_neg (fun he => hstr (by rw [he]))]
    | int n => rfl
    | bool b => rfl
    | list xs => exact absurd hv (hlist xs)
    | map kvs => rfl
    | null => rfl
  · intro xs hv
    unfold convertTemplateGroup
    rw [hv]

/-- C10 witness: the theorem applied to a concrete group with a
non-string name, a non-string type and an integer proxies field, and to
a concrete group whose literal list mixes "DIRECT" with an integer. -/
theorem C10_merger_totality_witness :
    (convertTemplateGroup ["n"] groupIllTyped).name = "" ∧
    (convertTemplateGroup ["n"] groupIllTyped).type = "" ∧
    (convertTemplateGroup ["n"] groupIllTyped).proxies = [] ∧
    (convertTemplateGroup ["n"] groupMixedList).proxies = ["DIRECT"] := by
  refine ⟨?_, ?_, ?_, ?_⟩
  · exact (C10_merger_totality ["n"] groupIllTyped tmplSample []).2.1
      (fun s hc => YamlValue.noConfusion hc)
  · exact (C10_merger_totality ["n"] groupIllTyped tmplSample []).2.2.1
      (fun s hc => YamlValue.noConfusion hc)
  · exact (C10_merger_totality ["n"] groupIllTyped tmplSample []).2.2.2.1
      (fun hc => YamlValue.noConfusion hc)
      (fun xs hc => YamlValue.noConfusion hc)
  · exact (C10_merger_totality ["n"] groupMixedList tmplSample []).2.2.2.2
      [YamlValue.str "DIRECT", YamlValue.int 3] rfl
